import Mathlib

/-!
Shallow embedding of the scheduling, memory-accounting and parallel-execution
core of the resizer repository (src/src/parallel/scheduler.rs,
src/src/processing/memory.rs, src/src/parallel/mod.rs), together with theorems
settling the specification claims about it.

Modelling conventions:
* Rust u64/usize/u32 counters are modelled as Nat; overflow is irrelevant to
  every claim below, and saturating_sub on u64 is exactly Nat subtraction.
* Rust f64 values (usage percentage, throughput) are modelled as Rat; at every
  input appearing in the claims the f64 computation is exact, so the models
  agree there.
* VecDeque is modelled as List (push_back appends at the end, pop_front takes
  the head).
* Interior mutability (Arc of Mutex) is modelled by explicit state passing; the
  claims all assume a single-threaded sequence of operations.
* Instant::now and the atomic id counter are modelled as explicit parameters.
-/

namespace Resizer

/-- Job priority levels; source declares Low = 0, Normal = 1, High = 2. -/
inductive JobPriority where
  | low
  | normal
  | high
deriving DecidableEq, Repr

/-- Configuration for the work scheduler; percentages are f64 in the source,
modelled as Rat. -/
structure SchedulerConfig where
  max_concurrent : Nat
  target_memory_usage : Rat
  batch_size : Nat
  large_file_priority_boost : Int
  large_file_threshold : Nat
  max_wait_time : Nat
deriving DecidableEq, Repr

/-- Default for SchedulerConfig; num_cpus::get() is an external system query,
modelled as the parameter numCpus. -/
def SchedulerConfig.default (numCpus : Nat) : SchedulerConfig where
  max_concurrent := min numCpus 16
  target_memory_usage := 75
  batch_size := 10
  large_file_priority_boost := 10
  large_file_threshold := 50 * 1024 * 1024
  max_wait_time := 300

/-- Individual work item in the queue; created_at (an Instant) is a Nat
timestamp, estimated_processing_time (a Duration) is in milliseconds. -/
structure WorkItem where
  id : Nat
  input_path : String
  estimated_size : Nat
  priority : JobPriority
  created_at : Nat
  estimated_memory : Nat
  estimated_processing_time : Nat
deriving DecidableEq, Repr

/-- WorkItem::calculate_priority from scheduler.rs. -/
def WorkItem.calculate_priority (file_size : Nat) (config : SchedulerConfig) :
    JobPriority :=
  if file_size ≥ config.large_file_threshold then
    JobPriority.high
  else if file_size < 1024 * 1024 then
    JobPriority.low
  else
    JobPriority.normal

/-- WorkItem::estimate_memory_usage from scheduler.rs: 40x the file size. -/
def WorkItem.estimate_memory_usage (file_size : Nat) : Nat :=
  file_size * 10 * 4

/-- WorkItem::estimate_processing_time from scheduler.rs, in milliseconds;
the Rust match on inclusive ranges becomes nested comparisons. -/
def WorkItem.estimate_processing_time (file_size : Nat) : Nat :=
  if file_size ≤ 1000000 then 100
  else if file_size ≤ 10000000 then 500
  else if file_size ≤ 50000000 then 2000
  else 5000

/-- WorkItem::new from scheduler.rs; the atomically generated id and
Instant::now are passed in as id and now. -/
def WorkItem.new (id : Nat) (input_path : String) (file_size : Nat) (now : Nat)
    (config : SchedulerConfig) : WorkItem where
  id := id
  input_path := input_path
  estimated_size := file_size
  priority := WorkItem.calculate_priority file_size config
  created_at := now
  estimated_memory := WorkItem.estimate_memory_usage file_size
  estimated_processing_time := WorkItem.estimate_processing_time file_size

/-- Work queue for managing job prioritization: three FIFO sub-queues plus a
total count, from scheduler.rs. -/
structure WorkQueue where
  high_priority : List WorkItem
  normal_priority : List WorkItem
  low_priority : List WorkItem
  total_items : Nat
deriving DecidableEq, Repr

/-- WorkQueue::new. -/
def WorkQueue.new : WorkQueue where
  high_priority := []
  normal_priority := []
  low_priority := []
  total_items := 0

/-- WorkQueue::add_item: push_back into the sub-queue selected by the item
priority, then increment total_items. -/
def WorkQueue.add_item (q : WorkQueue) (item : WorkItem) : WorkQueue :=
  match item.priority with
  | JobPriority.high =>
      { q with high_priority := q.high_priority ++ [item],
               total_items := q.total_items + 1 }
  | JobPriority.normal =>
      { q with normal_priority := q.normal_priority ++ [item],
               total_items := q.total_items + 1 }
  | JobPriority.low =>
      { q with low_priority := q.low_priority ++ [item],
               total_items := q.total_items + 1 }

/-- WorkQueue::get_next_item: pop_front from High, else Normal, else Low;
on success total_items is decremented with saturating_sub (Nat subtraction). -/
def WorkQueue.get_next_item (q : WorkQueue) : Option WorkItem × WorkQueue :=
  match q.high_priority with
  | item :: rest =>
      (some item, { q with high_priority := rest,
                           total_items := q.total_items - 1 })
  | [] =>
      match q.normal_priority with
      | item :: rest =>
          (some item, { q with normal_priority := rest,
                               total_items := q.total_items - 1 })
      | [] =>
          match q.low_priority with
          | item :: rest =>
              (some item, { q with low_priority := rest,
                                   total_items := q.total_items - 1 })
          | [] => (none, q)

/-- WorkQueue::clear. -/
def WorkQueue.clear (_q : WorkQueue) : WorkQueue :=
  { high_priority := [], normal_priority := [], low_priority := [],
    total_items := 0 }

/-- Number of items actually held in the three sub-queues. -/
def WorkQueue.size (q : WorkQueue) : Nat :=
  q.high_priority.length + q.normal_priority.length + q.low_priority.length

@[simp] lemma WorkQueue.size_mk (h m l : List WorkItem) (t : Nat) :
    WorkQueue.size ⟨h, m, l, t⟩ = h.length + m.length + l.length :=
  rfl

/-- Repeated get_next_item calls, with fuel bounding the number of calls. -/
def WorkQueue.drainAux : Nat → WorkQueue → List WorkItem
  | 0, _ => []
  | fuel + 1, q =>
      match q.get_next_item with
      | (some item, q2) => item :: WorkQueue.drainAux fuel q2
      | (none, _) => []

/-- Draining the queue by repeated get_next_item calls until it is empty. -/
def WorkQueue.drain (q : WorkQueue) : List WorkItem :=
  WorkQueue.drainAux q.size q

/-- Enqueue a list of items in order via WorkQueue::add_item. -/
def WorkQueue.enqueueAll (q : WorkQueue) (items : List WorkItem) : WorkQueue :=
  items.foldl WorkQueue.add_item q

/-- States reachable from the empty queue by add_item, get_next_item and
clear. -/
inductive WorkQueue.Reachable : WorkQueue → Prop where
  | new : WorkQueue.Reachable WorkQueue.new
  | add (q : WorkQueue) (item : WorkItem) :
      WorkQueue.Reachable q → WorkQueue.Reachable (q.add_item item)
  | next (q : WorkQueue) :
      WorkQueue.Reachable q → WorkQueue.Reachable q.get_next_item.2
  | clear (q : WorkQueue) :
      WorkQueue.Reachable q → WorkQueue.Reachable q.clear

lemma WorkQueue.drainAux_eq (n : Nat) :
    ∀ q : WorkQueue, q.size ≤ n →
      WorkQueue.drainAux n q =
        q.high_priority ++ q.normal_priority ++ q.low_priority := by
  induction n with
  | zero =>
      intro q hq
      rcases q with ⟨h, m, l, t⟩
      simp only [WorkQueue.size, Nat.le_zero, Nat.add_eq_zero,
        List.length_eq_zero] at hq
      obtain ⟨⟨hh, hm⟩, hl⟩ := hq
      subst hh; subst hm; subst hl
      simp [WorkQueue.drainAux]
  | succ n ih =>
      intro q hq
      rcases q with ⟨h, m, l, t⟩
      cases h with
      | cons a h2 =>
          have hsz : WorkQueue.size ⟨h2, m, l, t - 1⟩ ≤ n := by
            simp only [WorkQueue.size, List.length_cons] at hq ⊢
            omega
          simp [WorkQueue.drainAux, WorkQueue.get_next_item, ih _ hsz]
      | nil =>
          cases m with
          | cons a m2 =>
              have hsz : WorkQueue.size ⟨[], m2, l, t - 1⟩ ≤ n := by
                simp only [WorkQueue.size, List.length_cons,
                  List.length_nil] at hq ⊢
                omega
              simp [WorkQueue.drainAux, WorkQueue.get_next_item, ih _ hsz]
          | nil =>
              cases l with
              | cons a l2 =>
                  have hsz : WorkQueue.size ⟨[], [], l2, t - 1⟩ ≤ n := by
                    simp only [WorkQueue.size, List.length_cons,
                      List.length_nil] at hq ⊢
                    omega
                  simp [WorkQueue.drainAux, WorkQueue.get_next_item, ih _ hsz]
              | nil =>
                  simp [WorkQueue.drainAux, WorkQueue.get_next_item]

lemma WorkQueue.drain_eq (q : WorkQueue) :
    q.drain = q.high_priority ++ q.normal_priority ++ q.low_priority :=
  WorkQueue.drainAux_eq q.size q (Nat.le_refl _)

lemma WorkQueue.enqueueAll_components (items : List WorkItem) :
    ∀ q : WorkQueue,
      (q.enqueueAll items).high_priority =
        q.high_priority ++
          items.filter (fun i => i.priority == JobPriority.high) ∧
      (q.enqueueAll items).normal_priority =
        q.normal_priority ++
          items.filter (fun i => i.priority == JobPriority.normal) ∧
      (q.enqueueAll items).low_priority =
        q.low_priority ++
          items.filter (fun i => i.priority == JobPriority.low) := by
  induction items with
  | nil => intro q; simp [WorkQueue.enqueueAll]
  | cons a rest ih =>
      intro q
      have h := ih (q.add_item a)
      cases hp : a.priority <;>
        simp_all [WorkQueue.enqueueAll, WorkQueue.add_item, hp,
          List.filter_cons]

/-- Buffer size category for the memory pool (memory.rs); breakpoints are
under 1 MiB / under 10 MiB / at least 10 MiB. -/
inductive BufferSize where
  | small
  | medium
  | large
deriving DecidableEq, Repr

/-- The size-class dispatch used by MemoryPool::acquire_buffer (and repeated
for size_category and return_to_pool). -/
def sizeClass (min_size : Nat) : BufferSize :=
  if min_size < 1024 * 1024 then BufferSize.small
  else if min_size < 10 * 1024 * 1024 then BufferSize.medium
  else BufferSize.large

/-- A Rust Vec of u8 modelled by its length and capacity; the byte contents
play no role in any claim. vec![0; n] yields len = cap = n. -/
structure Buffer where
  len : Nat
  cap : Nat
deriving DecidableEq, Repr

/-- PoolStats from memory.rs. -/
structure PoolStats where
  small_allocated : Nat
  small_reused : Nat
  medium_allocated : Nat
  medium_reused : Nat
  large_allocated : Nat
  large_reused : Nat
  total_memory_saved : Nat
deriving DecidableEq, Repr

/-- PoolStats::default: all counters zero. -/
def PoolStats.zero : PoolStats :=
  ⟨0, 0, 0, 0, 0, 0, 0⟩

/-- Stats update in the reuse branch of acquire_from_pool: the reused counter
of the category is incremented and min_size is added to total_memory_saved. -/
def PoolStats.bumpReused (stats : PoolStats) (cat : BufferSize)
    (min_size : Nat) : PoolStats :=
  match cat with
  | BufferSize.small =>
      { stats with small_reused := stats.small_reused + 1,
                   total_memory_saved := stats.total_memory_saved + min_size }
  | BufferSize.medium =>
      { stats with medium_reused := stats.medium_reused + 1,
                   total_memory_saved := stats.total_memory_saved + min_size }
  | BufferSize.large =>
      { stats with large_reused := stats.large_reused + 1,
                   total_memory_saved := stats.total_memory_saved + min_size }

/-- Stats update in the fresh-allocation branch of acquire_from_pool. -/
def PoolStats.bumpAllocated (stats : PoolStats) (cat : BufferSize) :
    PoolStats :=
  match cat with
  | BufferSize.small =>
      { stats with small_allocated := stats.small_allocated + 1 }
  | BufferSize.medium =>
      { stats with medium_allocated := stats.medium_allocated + 1 }
  | BufferSize.large =>
      { stats with large_allocated := stats.large_allocated + 1 }

/-- Observer: the reused counter of a given size class. -/
def PoolStats.reusedCount (stats : PoolStats) : BufferSize → Nat
  | BufferSize.small => stats.small_reused
  | BufferSize.medium => stats.medium_reused
  | BufferSize.large => stats.large_reused

/-- Observer: the allocated counter of a given size class. -/
def PoolStats.allocatedCount (stats : PoolStats) : BufferSize → Nat
  | BufferSize.small => stats.small_allocated
  | BufferSize.medium => stats.medium_allocated
  | BufferSize.large => stats.large_allocated

/-- MemoryPool::acquire_from_pool from memory.rs, acting on one free list and
the stats. The Rust loop pops the front buffer; if its capacity satisfies
min_size the buffer is cleared, resized to min_size and counted as reused;
otherwise the front buffer is pushed to the back and the loop breaks, so at
most one buffer is ever examined; an empty list (or the break) falls through
to a fresh vec![0; min_size] counted as allocated. -/
def acquire_from_pool (buffers : List Buffer) (stats : PoolStats)
    (min_size : Nat) (size_category : BufferSize) :
    Buffer × List Buffer × PoolStats :=
  match buffers with
  | [] =>
      (⟨min_size, min_size⟩, [], stats.bumpAllocated size_category)
  | b :: rest =>
      if b.cap ≥ min_size then
        (⟨min_size, b.cap⟩, rest, stats.bumpReused size_category min_size)
      else
        (⟨min_size, min_size⟩, rest ++ [b], stats.bumpAllocated size_category)

/-- Memory pool for reusing image buffers: three size-classed free lists plus
statistics, from memory.rs. -/
structure MemoryPool where
  small_buffers : List Buffer
  medium_buffers : List Buffer
  large_buffers : List Buffer
  stats : PoolStats
deriving DecidableEq, Repr

/-- MemoryPool::new: empty free lists, zero statistics. -/
def MemoryPool.new : MemoryPool :=
  ⟨[], [], [], PoolStats.zero⟩

/-- A buffer handle that returns to the pool when dropped: the held buffer and
the size category chosen from min_size at acquisition (determining both the
stats counters and the destination free list). -/
structure ManagedBuffer where
  buffer : Buffer
  size_category : BufferSize
deriving DecidableEq, Repr

/-- MemoryPool::acquire_buffer: dispatch on the size class of min_size,
acquire from the corresponding free list, and build the ManagedBuffer. -/
def MemoryPool.acquire_buffer (p : MemoryPool) (min_size : Nat) :
    ManagedBuffer × MemoryPool :=
  match sizeClass min_size with
  | BufferSize.small =>
      let r := acquire_from_pool p.small_buffers p.stats min_size
        BufferSize.small
      (⟨r.1, BufferSize.small⟩,
        { p with small_buffers := r.2.1, stats := r.2.2 })
  | BufferSize.medium =>
      let r := acquire_from_pool p.medium_buffers p.stats min_size
        BufferSize.medium
      (⟨r.1, BufferSize.medium⟩,
        { p with medium_buffers := r.2.1, stats := r.2.2 })
  | BufferSize.large =>
      let r := acquire_from_pool p.large_buffers p.stats min_size
        BufferSize.large
      (⟨r.1, BufferSize.large⟩,
        { p with large_buffers := r.2.1, stats := r.2.2 })

/-- MAX_POOLED_SIZE from the Drop impl of ManagedBuffer: 100 MB. -/
def MAX_POOLED_SIZE : Nat := 100 * 1024 * 1024

/-- Free-list capacity cap per class from the Drop impl of ManagedBuffer. -/
def maxPoolSize : BufferSize → Nat
  | BufferSize.small => 100
  | BufferSize.medium => 50
  | BufferSize.large => 20

/-- The Drop impl of ManagedBuffer: the buffer goes back to the free list of
its category unless its capacity exceeds MAX_POOLED_SIZE or that list is
already at its cap, in which case it is discarded. -/
def ManagedBuffer.drop (mb : ManagedBuffer) (p : MemoryPool) : MemoryPool :=
  if mb.buffer.cap ≤ MAX_POOLED_SIZE then
    match mb.size_category with
    | BufferSize.small =>
        if p.small_buffers.length < maxPoolSize BufferSize.small then
          { p with small_buffers := p.small_buffers ++ [mb.buffer] }
        else p
    | BufferSize.medium =>
        if p.medium_buffers.length < maxPoolSize BufferSize.medium then
          { p with medium_buffers := p.medium_buffers ++ [mb.buffer] }
        else p
    | BufferSize.large =>
        if p.large_buffers.length < maxPoolSize BufferSize.large then
          { p with large_buffers := p.large_buffers ++ [mb.buffer] }
        else p
  else p

/-- Memory usage monitor from memory.rs: a ceiling in bytes and the current
usage estimate. The None branch of MemoryMonitor::new auto-detects system
memory via sysinfo (external); only the Some(max_memory_mb) branch is
modelled. -/
structure MemoryMonitor where
  max_memory_usage : Nat
  current_usage_estimate : Nat
deriving DecidableEq, Repr

/-- MemoryMonitor::new(Some(max_memory_mb)): the ceiling converted to bytes,
usage zero. -/
def MemoryMonitor.new (max_memory_mb : Nat) : MemoryMonitor :=
  ⟨max_memory_mb * 1024 * 1024, 0⟩

/-- MemoryMonitor::can_allocate. -/
def MemoryMonitor.can_allocate (m : MemoryMonitor) (size : Nat) : Bool :=
  m.current_usage_estimate + size ≤ m.max_memory_usage

/-- MemoryMonitor::allocate: unconditionally adds size to the estimate (the
over-limit case only logs a warning). -/
def MemoryMonitor.allocate (m : MemoryMonitor) (size : Nat) : MemoryMonitor :=
  { m with current_usage_estimate := m.current_usage_estimate + size }

/-- MemoryMonitor::deallocate: saturating_sub, which on Nat is subtraction. -/
def MemoryMonitor.deallocate (m : MemoryMonitor) (size : Nat) :
    MemoryMonitor :=
  { m with current_usage_estimate := m.current_usage_estimate - size }

/-- MemoryMonitor::current_usage. -/
def MemoryMonitor.current_usage (m : MemoryMonitor) : Nat :=
  m.current_usage_estimate

/-- MemoryMonitor::max_usage. -/
def MemoryMonitor.max_usage (m : MemoryMonitor) : Nat :=
  m.max_memory_usage

/-- MemoryMonitor::usage_percentage: current / max * 100 clamped to at most
100; f64 modelled as Rat (exact at every input in the claims). -/
def MemoryMonitor.usage_percentage (m : MemoryMonitor) : Rat :=
  min ((m.current_usage : Rat) / (m.max_memory_usage : Rat) * 100) 100

/-- RAII tracker from memory.rs; holds the size it accounted for. -/
structure MemoryTracker where
  allocated_size : Nat
deriving DecidableEq, Repr

/-- MemoryTracker::new: succeeds and records the allocation exactly when
can_allocate holds, otherwise returns None leaving the monitor untouched.
The resulting monitor state is returned alongside. -/
def MemoryTracker.new (monitor : MemoryMonitor) (size : Nat) :
    Option MemoryTracker × MemoryMonitor :=
  if monitor.can_allocate size then
    (some ⟨size⟩, monitor.allocate size)
  else
    (none, monitor)

/-- The Drop impl of MemoryTracker: deallocates the recorded size. -/
def MemoryTracker.drop (t : MemoryTracker) (m : MemoryMonitor) :
    MemoryMonitor :=
  m.deallocate t.allocated_size

/-- A single monitor call, for reasoning about call sequences. -/
inductive MemOp where
  | alloc (n : Nat)
  | dealloc (n : Nat)
deriving DecidableEq, Repr

/-- Apply one monitor call. -/
def MemOp.apply (m : MemoryMonitor) : MemOp → MemoryMonitor
  | MemOp.alloc n => m.allocate n
  | MemOp.dealloc n => m.deallocate n

/-- Run a sequence of monitor calls. -/
def runOps (m : MemoryMonitor) (ops : List MemOp) : MemoryMonitor :=
  ops.foldl MemOp.apply m

/-- Total bytes passed to allocate in a call sequence. -/
def allocTotal (ops : List MemOp) : Nat :=
  ops.foldr
    (fun op acc =>
      match op with
      | MemOp.alloc n => n + acc
      | MemOp.dealloc _ => acc) 0

/-- Total bytes passed to deallocate in a call sequence. -/
def deallocTotal (ops : List MemOp) : Nat :=
  ops.foldr
    (fun op acc =>
      match op with
      | MemOp.alloc _ => acc
      | MemOp.dealloc n => n + acc) 0

/-- Image formats supported by the pipeline (config module). -/
inductive ImageFormat where
  | jpeg
  | png
  | webp
  | avif
deriving DecidableEq, Repr

/-- ImageInfo from processing/mod.rs; PathBuf as String, u32/u64 as Nat. -/
structure ImageInfo where
  path : String
  width : Nat
  height : Nat
  format : ImageFormat
  file_size : Nat
  pixel_count : Nat
deriving DecidableEq, Repr

/-- ProcessingResult from processing/mod.rs; the Duration is milliseconds. -/
structure ProcessingResult where
  input_path : String
  output_path : String
  original_info : ImageInfo
  output_info : ImageInfo
  processing_time : Nat
  success : Bool
  error : Option String
deriving DecidableEq, Repr

/-- FastResizeError from error.rs, abstracted to its message; the claims only
ever count errors and carry them along. -/
structure FastResizeError where
  message : String
deriving DecidableEq, Repr

/-- Batch aggregate from parallel/mod.rs; the two f64 rates modelled as Rat
and the Duration as Rat seconds. -/
structure BatchProcessingResult where
  successful : Nat
  failed : Nat
  successful_results : List ProcessingResult
  failed_errors : List FastResizeError
  processing_time : Rat
  total_input_size : Nat
  total_output_size : Nat
  total_pixels_processed : Nat
  files_per_second : Rat
  pixels_per_second : Rat
deriving DecidableEq, Repr

/-- The partition loop inside ParallelProcessor::aggregate_results: Ok results
go to the success list, Err to the failure list, order preserved. -/
def split_results :
    List (Except FastResizeError ProcessingResult) →
      List ProcessingResult × List FastResizeError
  | [] => ([], [])
  | Except.ok r :: rest =>
      let p := split_results rest
      (r :: p.1, p.2)
  | Except.error e :: rest =>
      let p := split_results rest
      (p.1, e :: p.2)

/-- ParallelProcessor::aggregate_results from parallel/mod.rs. -/
def aggregate_results (results : List (Except FastResizeError ProcessingResult))
    (processing_time : Rat) : BatchProcessingResult :=
  let p := split_results results
  let successful_results := p.1
  let failed_results := p.2
  let total_input_size :=
    (successful_results.map (fun r => r.original_info.file_size)).sum
  let total_output_size :=
    (successful_results.map (fun r => r.output_info.file_size)).sum
  let total_pixels_processed :=
    (successful_results.map (fun r => r.original_info.pixel_count)).sum
  { successful := successful_results.length
    failed := failed_results.length
    successful_results := successful_results
    failed_errors := failed_results
    processing_time := processing_time
    total_input_size := total_input_size
    total_output_size := total_output_size
    total_pixels_processed := total_pixels_processed
    files_per_second := (successful_results.length : Rat) / processing_time
    pixels_per_second := (total_pixels_processed : Rat) / processing_time }

/-- ParallelProcessor::process_files_async from parallel/mod.rs: one task per
file, each invoking the transform on its file; join_all preserves submission
order, so the deterministic outcome is the per-file transform applied to each
file in order. The transform (engine.process_file) is the external codec
collaborator, passed in as a function. -/
def process_files_async
    (process : String → Except FastResizeError ProcessingResult)
    (files : List String) : List (Except FastResizeError ProcessingResult) :=
  files.map process

/-- Scheduler statistics from scheduler.rs; Durations as Nat nanoseconds, f64
fields as Rat. -/
structure SchedulerStats where
  jobs_queued : Nat
  jobs_completed : Nat
  jobs_failed : Nat
  total_wait_time : Nat
  total_processing_time : Nat
  average_queue_length : Rat
  memory_pressure_events : Nat
  throughput_files_per_second : Rat
deriving DecidableEq, Repr

/-- Duration::as_secs_f64 on a nanosecond count, modelled in Rat. -/
def durationSecs (nanos : Nat) : Rat :=
  (nanos : Rat) / 1000000000

/-- The scheduler state touched by WorkScheduler methods: the queue, the
configuration, the semaphore (its free permit count) and the stats; the
memory monitor rides along. -/
structure WorkScheduler where
  memory_monitor : MemoryMonitor
  queue : WorkQueue
  semaphore_permits : Nat
  config : SchedulerConfig
  stats : SchedulerStats
deriving DecidableEq, Repr

/-- WorkScheduler::complete_job from scheduler.rs: bump exactly one of the
completed/failed counters, add the processing time, and recompute throughput
when the total job count and the accumulated processing time are both
nonzero. The job_id is only logged. -/
def WorkScheduler.complete_job (s : WorkScheduler) (job_id : Nat)
    (success : Bool) (processing_time : Nat) : WorkScheduler :=
  let _ := job_id
  let st0 := s.stats
  let st1 :=
    if success then { st0 with jobs_completed := st0.jobs_completed + 1 }
    else { st0 with jobs_failed := st0.jobs_failed + 1 }
  let st2 :=
    { st1 with total_processing_time :=
        st1.total_processing_time + processing_time }
  let total_jobs := st2.jobs_completed + st2.jobs_failed
  let st3 :=
    if total_jobs > 0 ∧ st2.total_processing_time ≠ 0 then
      { st2 with throughput_files_per_second :=
          (total_jobs : Rat) / durationSecs st2.total_processing_time }
    else st2
  { s with stats := st3 }

/-- C1: for every sequence of WorkItems enqueued in any interleaving of
priorities, draining the queue by repeated get_next_item calls returns all
High-priority items, then all Normal-priority items, then all Low-priority
items, each class in the FIFO order of enqueueing. -/
theorem drain_returns_strict_priority_fifo (items : List WorkItem) :
    (WorkQueue.new.enqueueAll items).drain =
      items.filter (fun i => i.priority == JobPriority.high) ++
      items.filter (fun i => i.priority == JobPriority.normal) ++
      items.filter (fun i => i.priority == JobPriority.low) := by
  obtain ⟨hh, hn, hl⟩ := WorkQueue.enqueueAll_components items WorkQueue.new
  rw [WorkQueue.drain_eq, hh, hn, hl]
  simp [WorkQueue.new]

/-- C6: with the default SchedulerConfig (large_file_threshold 50 MB),
WorkItem creation derives priority by the fixed thresholds (size at least the
large threshold gives High, size under 1 MiB gives Low, otherwise Normal);
items of 500 KB, 5 MB and 100 MB get Low, Normal and High, and draining the
queue yields them in the order High, Normal, Low. -/
theorem default_config_priority_thresholds (numCpus size : Nat) :
    WorkItem.calculate_priority size (SchedulerConfig.default numCpus) =
      (if size ≥ 50 * 1024 * 1024 then JobPriority.high
       else if size < 1024 * 1024 then JobPriority.low
       else JobPriority.normal) ∧
    (WorkItem.new 1 ("small.jpg") 500000 0
        (SchedulerConfig.default numCpus)).priority = JobPriority.low ∧
    (WorkItem.new 2 ("medium.jpg") 5000000 0
        (SchedulerConfig.default numCpus)).priority = JobPriority.normal ∧
    (WorkItem.new 3 ("large.jpg") 100000000 0
        (SchedulerConfig.default numCpus)).priority = JobPriority.high ∧
    (WorkQueue.new.enqueueAll
        [WorkItem.new 1 ("small.jpg") 500000 0 (SchedulerConfig.default numCpus),
         WorkItem.new 2 ("medium.jpg") 5000000 0 (SchedulerConfig.default numCpus),
         WorkItem.new 3 ("large.jpg") 100000000 0
           (SchedulerConfig.default numCpus)]).drain =
      [WorkItem.new 3 ("large.jpg") 100000000 0 (SchedulerConfig.default numCpus),
       WorkItem.new 2 ("medium.jpg") 5000000 0 (SchedulerConfig.default numCpus),
       WorkItem.new 1 ("small.jpg") 500000 0 (SchedulerConfig.default numCpus)] := by
  refine ⟨rfl, ?_, ?_, ?_, ?_⟩ <;>
    simp [WorkQueue.drain_eq, WorkQueue.enqueueAll, WorkQueue.add_item,
      WorkQueue.new, WorkItem.new, WorkItem.calculate_priority,
      SchedulerConfig.default]

/-- C7: for every WorkQueue state reachable from the empty queue by add_item,
get_next_item and clear, total_items equals the sum of the lengths of the
three priority sub-queues. -/
theorem workqueue_total_invariant (q : WorkQueue) (h : q.Reachable) :
    q.total_items = q.size := by
  induction h with
  | new => rfl
  | add q item hr ih =>
      rcases q with ⟨h, m, l, t⟩
      cases hp : item.priority <;>
        simp [WorkQueue.add_item, hp, WorkQueue.size] at ih ⊢ <;> omega
  | next q hr ih =>
      rcases q with ⟨h, m, l, t⟩
      cases h with
      | cons a h2 =>
          simp [WorkQueue.get_next_item, WorkQueue.size] at ih ⊢; omega
      | nil =>
          cases m with
          | cons a m2 =>
              simp [WorkQueue.get_next_item, WorkQueue.size] at ih ⊢; omega
          | nil =>
              cases l with
              | cons a l2 =>
                  simp [WorkQueue.get_next_item, WorkQueue.size] at ih ⊢
                  omega
              | nil => simpa [WorkQueue.get_next_item, WorkQueue.size] using ih
  | clear q hr ih => rfl

/-- Witness for C7: the invariant evaluated on a concrete reachable queue
holding one scheduled item. -/
theorem workqueue_total_invariant_witness :
    (WorkQueue.new.add_item
        (WorkItem.new 1 ("a.jpg") 500 0 (SchedulerConfig.default 8))).total_items =
      (WorkQueue.new.add_item
        (WorkItem.new 1 ("a.jpg") 500 0 (SchedulerConfig.default 8))).size :=
  workqueue_total_invariant _
    (WorkQueue.Reachable.add _ _ WorkQueue.Reachable.new)

@[simp] lemma PoolStats.reusedCount_bumpReused (stats : PoolStats)
    (cat : BufferSize) (n : Nat) :
    (stats.bumpReused cat n).reusedCount cat = stats.reusedCount cat + 1 := by
  cases cat <;> rfl

@[simp] lemma PoolStats.allocatedCount_bumpReused (stats : PoolStats)
    (cat : BufferSize) (n : Nat) :
    (stats.bumpReused cat n).allocatedCount cat = stats.allocatedCount cat := by
  cases cat <;> rfl

@[simp] lemma PoolStats.saved_bumpReused (stats : PoolStats)
    (cat : BufferSize) (n : Nat) :
    (stats.bumpReused cat n).total_memory_saved =
      stats.total_memory_saved + n := by
  cases cat <;> rfl

@[simp] lemma PoolStats.reusedCount_bumpAllocated (stats : PoolStats)
    (cat : BufferSize) :
    (stats.bumpAllocated cat).reusedCount cat = stats.reusedCount cat := by
  cases cat <;> rfl

@[simp] lemma PoolStats.allocatedCount_bumpAllocated (stats : PoolStats)
    (cat : BufferSize) :
    (stats.bumpAllocated cat).allocatedCount cat =
      stats.allocatedCount cat + 1 := by
  cases cat <;> rfl

@[simp] lemma PoolStats.saved_bumpAllocated (stats : PoolStats)
    (cat : BufferSize) :
    (stats.bumpAllocated cat).total_memory_saved =
      stats.total_memory_saved := by
  cases cat <;> rfl

lemma runOps_exact (ops : List MemOp) : ∀ m : MemoryMonitor,
    (∀ k, k ≤ ops.length →
      deallocTotal (ops.take k) ≤
        m.current_usage_estimate + allocTotal (ops.take k)) →
    (runOps m ops).current_usage_estimate =
      m.current_usage_estimate + allocTotal ops - deallocTotal ops := by
  induction ops with
  | nil =>
      intro m h
      simp [runOps, allocTotal, deallocTotal]
  | cons op rest ih =>
      intro m h
      cases op with
      | alloc n =>
          have h2 : ∀ k, k ≤ rest.length →
              deallocTotal (rest.take k) ≤
                (m.allocate n).current_usage_estimate +
                  allocTotal (rest.take k) := by
            intro k hk
            have h3 := h (k + 1) (by simpa using Nat.succ_le_succ hk)
            simp only [List.take_succ_cons, allocTotal, deallocTotal,
              List.foldr_cons, MemoryMonitor.allocate] at h3 ⊢
            omega
          have h4 := ih (m.allocate n) h2
          simp only [runOps, List.foldl_cons, MemOp.apply,
            MemoryMonitor.allocate] at h4 ⊢
          simp only [allocTotal, deallocTotal, List.foldr_cons]
          simp only [runOps, allocTotal, deallocTotal] at h4
          omega
      | dealloc n =>
          have hn : n ≤ m.current_usage_estimate := by
            have h1 := h 1 (by simp)
            simpa [List.take, allocTotal, deallocTotal] using h1
          have h2 : ∀ k, k ≤ rest.length →
              deallocTotal (rest.take k) ≤
                (m.deallocate n).current_usage_estimate +
                  allocTotal (rest.take k) := by
            intro k hk
            have h3 := h (k + 1) (by simpa using Nat.succ_le_succ hk)
            simp only [List.take_succ_cons, allocTotal, deallocTotal,
              List.foldr_cons, MemoryMonitor.deallocate] at h3 ⊢
            omega
          have h4 := ih (m.deallocate n) h2
          simp only [runOps, List.foldl_cons, MemOp.apply,
            MemoryMonitor.deallocate] at h4 ⊢
          simp only [allocTotal, deallocTotal, List.foldr_cons]
          simp only [runOps, allocTotal, deallocTotal] at h4
          omega

/-- C3: for every sequence of monitor calls whose every prefix has deallocated
no more than it allocated, the final usage is the allocation surplus, hence
zero once allocations and deallocations pair up; deallocate saturates at zero;
and the 100 MB scenario: after allocate(50 MB) the percentage is 50, after a
further deallocate(25 MB) it is 25 and can_allocate(80 MB) is false. -/
theorem memory_accounting (mb : Nat) (ops : List MemOp)
    (h : ∀ k, k ≤ ops.length →
      deallocTotal (ops.take k) ≤ allocTotal (ops.take k)) :
    (runOps (MemoryMonitor.new mb) ops).current_usage =
      allocTotal ops - deallocTotal ops ∧
    (allocTotal ops = deallocTotal ops →
      (runOps (MemoryMonitor.new mb) ops).current_usage = 0) ∧
    (∀ (m : MemoryMonitor) (s : Nat),
      ((m.deallocate s).current_usage : Int) =
        max ((m.current_usage : Int) - (s : Int)) 0) ∧
    ((MemoryMonitor.new 100).allocate (50 * 1024 * 1024)).usage_percentage
      = 50 ∧
    (((MemoryMonitor.new 100).allocate (50 * 1024 * 1024)).deallocate
      (25 * 1024 * 1024)).usage_percentage = 25 ∧
    (((MemoryMonitor.new 100).allocate (50 * 1024 * 1024)).deallocate
      (25 * 1024 * 1024)).can_allocate (80 * 1024 * 1024) = false := by
  have hmain : (runOps (MemoryMonitor.new mb) ops).current_usage_estimate =
      allocTotal ops - deallocTotal ops := by
    have := runOps_exact ops (MemoryMonitor.new mb) (by
      intro k hk
      simpa [MemoryMonitor.new] using h k hk)
    simpa [MemoryMonitor.new] using this
  refine ⟨hmain, ?_, ?_, ?_, ?_, ?_⟩
  · intro he
    simp [MemoryMonitor.current_usage] at hmain
    simp [MemoryMonitor.current_usage, hmain, he]
  · intro m s
    simp only [MemoryMonitor.deallocate, MemoryMonitor.current_usage]
    omega
  · norm_num [MemoryMonitor.new, MemoryMonitor.allocate,
      MemoryMonitor.usage_percentage, MemoryMonitor.current_usage]
  · norm_num [MemoryMonitor.new, MemoryMonitor.allocate,
      MemoryMonitor.deallocate, MemoryMonitor.usage_percentage,
      MemoryMonitor.current_usage]
  · decide

/-- Witness for C3: one matched allocate and deallocate pair of 5 bytes on a
100 MB monitor ends with usage zero. -/
theorem memory_accounting_witness :
    (runOps (MemoryMonitor.new 100)
      [MemOp.alloc 5, MemOp.dealloc 5]).current_usage = 0 :=
  (memory_accounting 100 [MemOp.alloc 5, MemOp.dealloc 5]
    (by decide)).2.1 (by decide)

/-- C8: MemoryTracker::new returns None exactly when can_allocate is false,
leaving the monitor untouched in that case; on Some it raises the usage by
exactly the tracked size, and dropping the tracker lowers it back by the same
amount. -/
theorem memory_tracker_balanced (m : MemoryMonitor) (size : Nat) :
    ((MemoryTracker.new m size).1 = none ↔ m.can_allocate size = false) ∧
    ((MemoryTracker.new m size).1 = none →
      (MemoryTracker.new m size).2 = m) ∧
    (∀ t : MemoryTracker, (MemoryTracker.new m size).1 = some t →
      (MemoryTracker.new m size).2.current_usage = m.current_usage + size ∧
      (t.drop (MemoryTracker.new m size).2).current_usage =
        m.current_usage) := by
  by_cases h : m.can_allocate size
  · refine ⟨by simp [MemoryTracker.new, h], by simp [MemoryTracker.new, h], ?_⟩
    intro t ht
    simp only [MemoryTracker.new, if_pos h] at ht ⊢
    obtain rfl : (⟨size⟩ : MemoryTracker) = t := by simpa using ht
    constructor
    · simp [MemoryMonitor.allocate, MemoryMonitor.current_usage]
    · simp [MemoryTracker.drop, MemoryMonitor.allocate,
        MemoryMonitor.deallocate, MemoryMonitor.current_usage]
  · refine ⟨by simp [MemoryTracker.new, h], by simp [MemoryTracker.new, h], ?_⟩
    intro t ht
    simp [MemoryTracker.new, h] at ht

/-- C9: allocate never rejects: it unconditionally adds the size, so the
estimate can exceed the ceiling (witnessed by a 1 MB monitor after a 2 MiB
allocation), while usage_percentage always stays between 0 and 100. -/
theorem allocate_unconditional_percentage_clamped (m : MemoryMonitor)
    (s : Nat) :
    (m.allocate s).current_usage = m.current_usage + s ∧
    0 ≤ m.usage_percentage ∧
    m.usage_percentage ≤ 100 ∧
    ((MemoryMonitor.new 1).allocate (2 * 1024 * 1024)).current_usage >
      ((MemoryMonitor.new 1).allocate (2 * 1024 * 1024)).max_usage := by
  refine ⟨rfl, ?_, ?_, by decide⟩
  · rw [MemoryMonitor.usage_percentage]
    rcases le_total ((m.current_usage : Rat) / (m.max_memory_usage : Rat) * 100)
      100 with hc | hc
    · rw [min_eq_left hc]
      positivity
    · rw [min_eq_right hc]
      norm_num
  · rw [MemoryMonitor.usage_percentage]
    exact min_le_right _ _

/-- C4 counterexample: with S the 2 MiB buffer (medium class) and s = 1024
bytes (small class, s ≤ S), acquire-release-acquire does not increment any
reused counter but does increment the small allocated counter, refuting the
claim for cross-class sizes. -/
theorem pool_reuse_cross_class_counterexample :
    1024 ≤ 2 * 1024 * 1024 ∧
    ((((MemoryPool.new.acquire_buffer (2 * 1024 * 1024)).1.drop
        (MemoryPool.new.acquire_buffer (2 * 1024 * 1024)).2).acquire_buffer
        1024).2.stats.small_reused = 0 ∧
     (((MemoryPool.new.acquire_buffer (2 * 1024 * 1024)).1.drop
        (MemoryPool.new.acquire_buffer (2 * 1024 * 1024)).2).acquire_buffer
        1024).2.stats.medium_reused = 0 ∧
     (((MemoryPool.new.acquire_buffer (2 * 1024 * 1024)).1.drop
        (MemoryPool.new.acquire_buffer (2 * 1024 * 1024)).2).acquire_buffer
        1024).2.stats.large_reused = 0) ∧
    (((MemoryPool.new.acquire_buffer (2 * 1024 * 1024)).1.drop
        (MemoryPool.new.acquire_buffer (2 * 1024 * 1024)).2).acquire_buffer
        1024).2.stats.small_allocated =
      ((MemoryPool.new.acquire_buffer (2 * 1024 * 1024)).1.drop
        (MemoryPool.new.acquire_buffer (2 * 1024 * 1024)).2).stats.small_allocated
        + 1 := by
  decide

/-- C4 (amended): for a fresh pool and sizes s ≤ S in the same size class
with S within the pool-admission ceiling, acquiring S, releasing it and
acquiring s increments the reused counter of that class and leaves the
allocated counter unchanged. -/
theorem pool_reuse_same_class (S s : Nat) (hs : s ≤ S)
    (hclass : sizeClass s = sizeClass S) (hmax : S ≤ MAX_POOLED_SIZE) :
    ((((MemoryPool.new.acquire_buffer S).1.drop
        (MemoryPool.new.acquire_buffer S).2).acquire_buffer
        s).2.stats.reusedCount (sizeClass s) =
      ((MemoryPool.new.acquire_buffer S).1.drop
        (MemoryPool.new.acquire_buffer S).2).stats.reusedCount (sizeClass s)
        + 1) ∧
    ((((MemoryPool.new.acquire_buffer S).1.drop
        (MemoryPool.new.acquire_buffer S).2).acquire_buffer
        s).2.stats.allocatedCount (sizeClass s) =
      ((MemoryPool.new.acquire_buffer S).1.drop
        (MemoryPool.new.acquire_buffer S).2).stats.allocatedCount
        (sizeClass s)) := by
  cases hc : sizeClass S <;>
    rw [hc] at hclass <;>
    simp [MemoryPool.acquire_buffer, hc, hclass, MemoryPool.new,
      acquire_from_pool, ManagedBuffer.drop, hmax, maxPoolSize, hs]

/-- Witness for C4 (amended): S = 2048, s = 1024, both in the small class. -/
theorem pool_reuse_same_class_witness :
    (1024 ≤ 2048 ∧ sizeClass 1024 = sizeClass 2048 ∧
      2048 ≤ MAX_POOLED_SIZE) ∧
    (((((MemoryPool.new.acquire_buffer 2048).1.drop
        (MemoryPool.new.acquire_buffer 2048).2).acquire_buffer
        1024).2.stats.reusedCount (sizeClass 1024) =
      ((MemoryPool.new.acquire_buffer 2048).1.drop
        (MemoryPool.new.acquire_buffer 2048).2).stats.reusedCount
        (sizeClass 1024) + 1) ∧
    ((((MemoryPool.new.acquire_buffer 2048).1.drop
        (MemoryPool.new.acquire_buffer 2048).2).acquire_buffer
        1024).2.stats.allocatedCount (sizeClass 1024) =
      ((MemoryPool.new.acquire_buffer 2048).1.drop
        (MemoryPool.new.acquire_buffer 2048).2).stats.allocatedCount
        (sizeClass 1024))) :=
  ⟨⟨by decide, by decide, by decide⟩,
    pool_reuse_same_class 2048 1024 (by decide) (by decide) (by decide)⟩

/-- C5 counterexample: the small-class free list holds a 512-capacity buffer
in front of a 4096-capacity one; acquiring 1024 bytes allocates fresh and
reuses nothing although the 4096-capacity buffer satisfies the request,
refuting the whenever-some-buffer-fits claim. -/
theorem pool_acquire_scan_counterexample :
    (∃ b ∈ [Buffer.mk 512 512, Buffer.mk 4096 4096], 1024 ≤ b.cap) ∧
    (acquire_from_pool [Buffer.mk 512 512, Buffer.mk 4096 4096]
      PoolStats.zero 1024 BufferSize.small).2.2.small_reused = 0 ∧
    (acquire_from_pool [Buffer.mk 512 512, Buffer.mk 4096 4096]
      PoolStats.zero 1024 BufferSize.small).2.2.small_allocated = 1 := by
  decide

/-- C5 (amended): acquire_from_pool examines only the first buffer of the
free list: exactly when the list is nonempty and its first buffer has
capacity at least min_size, that buffer is reused (reused counter and savings
bump, buffer resized to min_size); in every other case, including a deeper
buffer fitting, a fresh buffer of capacity min_size is allocated and counted
as allocated. -/
theorem pool_acquire_checks_front_only (buffers : List Buffer)
    (stats : PoolStats) (min_size : Nat) (cat : BufferSize) :
    ((∃ b rest, buffers = b :: rest ∧ min_size ≤ b.cap) →
      (acquire_from_pool buffers stats min_size cat).2.2.reusedCount cat =
        stats.reusedCount cat + 1 ∧
      (acquire_from_pool buffers stats min_size cat).2.2.allocatedCount cat =
        stats.allocatedCount cat ∧
      (acquire_from_pool buffers stats min_size cat).2.2.total_memory_saved =
        stats.total_memory_saved + min_size ∧
      (acquire_from_pool buffers stats min_size cat).1.len = min_size) ∧
    (¬ (∃ b rest, buffers = b :: rest ∧ min_size ≤ b.cap) →
      (acquire_from_pool buffers stats min_size cat).2.2.allocatedCount cat =
        stats.allocatedCount cat + 1 ∧
      (acquire_from_pool buffers stats min_size cat).2.2.reusedCount cat =
        stats.reusedCount cat ∧
      (acquire_from_pool buffers stats min_size cat).2.2.total_memory_saved =
        stats.total_memory_saved ∧
      (acquire_from_pool buffers stats min_size cat).1 =
        ⟨min_size, min_size⟩) := by
  cases buffers with
  | nil =>
      constructor
      · rintro ⟨b, rest, hb, _⟩
        exact absurd hb (by simp)
      · intro hn
        simp [acquire_from_pool]
  | cons b rest =>
      by_cases hcap : min_size ≤ b.cap
      · constructor
        · intro he
          simp [acquire_from_pool, hcap]
        · intro hn
          exact absurd ⟨b, rest, rfl, hcap⟩ hn
      · constructor
        · rintro ⟨b2, rest2, heq, hc2⟩
          obtain ⟨rfl, rfl⟩ : b = b2 ∧ rest = rest2 := by
            simpa using heq
          exact absurd hc2 hcap
        · intro hn
          simp [acquire_from_pool, hcap]

lemma split_results_length
    (results : List (Except FastResizeError ProcessingResult)) :
    (split_results results).1.length + (split_results results).2.length =
      results.length := by
  induction results with
  | nil => rfl
  | cons r rest ih =>
      cases r <;> simp [split_results] <;> omega

/-- C2: for every batch, the aggregated result satisfies successful + failed
equal to the number of submitted files; the async executor yields exactly one
outcome per file, and the outcome at each index is the transform applied to
that file, so one failing item never prevents the others from being
processed. -/
theorem batch_counts_partition
    (process : String → Except FastResizeError ProcessingResult)
    (files : List String) (time : Rat) :
    (aggregate_results (process_files_async process files) time).successful +
      (aggregate_results (process_files_async process files) time).failed =
      files.length ∧
    (process_files_async process files).length = files.length ∧
    (∀ i : Nat, (process_files_async process files)[i]? =
      (files[i]?).map process) := by
  refine ⟨?_, by simp [process_files_async], ?_⟩
  · have h := split_results_length (process_files_async process files)
    simp only [aggregate_results]
    simp only [process_files_async, List.length_map] at h ⊢
    exact h
  · intro i
    simp [process_files_async, List.getElem?_map]

/-- C10: complete_job changes only the statistics: exactly one of the
completed/failed counters is incremented, the processing time is added, and
the throughput is recomputed as total jobs over total processing time when
the job total and the accumulated time are both nonzero; queue,
configuration, semaphore and monitor are untouched, and the result does not
depend on the job id (no validation that it was ever scheduled). -/
theorem complete_job_frame (s : WorkScheduler) (job_id job_id2 : Nat)
    (success : Bool) (pt : Nat) :
    (s.complete_job job_id success pt).queue = s.queue ∧
    (s.complete_job job_id success pt).config = s.config ∧
    (s.complete_job job_id success pt).semaphore_permits =
      s.semaphore_permits ∧
    (s.complete_job job_id success pt).memory_monitor = s.memory_monitor ∧
    (s.complete_job job_id success pt).stats.jobs_completed =
      s.stats.jobs_completed + (if success then 1 else 0) ∧
    (s.complete_job job_id success pt).stats.jobs_failed =
      s.stats.jobs_failed + (if success then 0 else 1) ∧
    (s.complete_job job_id success pt).stats.total_processing_time =
      s.stats.total_processing_time + pt ∧
    (s.complete_job job_id success pt).stats.jobs_queued =
      s.stats.jobs_queued ∧
    (s.complete_job job_id success pt).stats.total_wait_time =
      s.stats.total_wait_time ∧
    (s.complete_job job_id success pt).stats.average_queue_length =
      s.stats.average_queue_length ∧
    (s.complete_job job_id success pt).stats.memory_pressure_events =
      s.stats.memory_pressure_events ∧
    (s.complete_job job_id success pt).stats.throughput_files_per_second =
      (if (s.complete_job job_id success pt).stats.jobs_completed +
            (s.complete_job job_id success pt).stats.jobs_failed > 0 ∧
          (s.complete_job job_id success pt).stats.total_processing_time ≠ 0
       then (((s.complete_job job_id success pt).stats.jobs_completed +
              (s.complete_job job_id success pt).stats.jobs_failed :
                Nat) : Rat) /
            durationSecs
              (s.complete_job job_id success pt).stats.total_processing_time
       else s.stats.throughput_files_per_second) ∧
    s.complete_job job_id success pt = s.complete_job job_id2 success pt := by
  cases success <;>
    refine ⟨rfl, rfl, rfl, rfl, ?_, ?_, ?_, ?_, ?_, ?_, ?_, ?_, rfl⟩ <;>
      simp [WorkScheduler.complete_job] <;>
      split <;>
      simp_all

end Resizer
